import Mathlib

/-!
# SynthFlow backend — shallow embedding and verification

This file embeds, in Lean 4, the parts of the SynthFlow backend that its
specification makes claims about:

* the token codec (`backend/app/core/auth.py`),
* the auth service — login / refresh / revoke over a persisted refresh-token
  store (`backend/app/services/auth_service.py`),
* the workflow service and its HTTP router
  (`backend/app/services/workflow_service.py`, `backend/app/routers/workflows.py`).

Modelling conventions:

* Time is a `Nat` of Unix seconds, passed explicitly where the Python code
  calls `datetime.now(timezone.utc)`.
* A JWT string is modelled by the inductive `Token`: `signed p` stands for the
  compact serialization of payload `p` signed with the application secret
  (HS256 encoding of a fixed payload is deterministic and injective, so
  equality of `Token` values corresponds to equality of the token strings),
  and `malformed s` stands for any string that does not verify against the
  secret.  `jwt.decode` validation of the `exp` claim follows RFC 7519: a
  token is accepted while the current time is before `exp`.
* The database session is a `DB` value threaded through the service
  functions; `select ... scalar_one_or_none` becomes `List.find?`, `db.add` +
  `flush` becomes an append that fails (as the unique-constraint violation
  would at flush) when a unique column collides.  A raised exception becomes
  an `Except.error`.
* Generated UUID primary keys are passed in as explicit fresh-id arguments.
* `created_at` / `updated_at` audit columns (from `TimestampMixin`) are not
  modelled; no claim mentions them.  Records are appended in creation order,
  so "ordered by creation time descending" is the reverse of the stored list.
-/

namespace SynthFlow

/-! ## Configuration (`backend/app/core/config.py`) -/

/-- The configuration fields the token lifecycle reads
(`ACCESS_TOKEN_EXPIRE_MINUTES`, `REFRESH_TOKEN_EXPIRE_DAYS`). -/
structure Settings where
  accessTokenExpireMinutes : Nat := 15
  refreshTokenExpireDays : Nat := 7
deriving DecidableEq, Repr

/-! ## Token codec (`backend/app/core/auth.py`) -/

def ACCESS_TOKEN_TYPE : String := "access"

def REFRESH_TOKEN_TYPE : String := "refresh"

/-- The claims dictionary carried by a signed token.  `sub` and `email` are
`Option` because a JWT payload may lack those keys; tokens minted by this
application always set `sub`, and set `email` on access tokens only. -/
structure TokenPayload where
  sub : Option String
  email : Option String
  type : String
  exp : Nat
  iat : Nat
deriving DecidableEq, Repr

/-- A token string: either the signed compact serialization of a payload under
the application secret, or a string that fails signature/structure checks. -/
inductive Token where
  | signed (p : TokenPayload)
  | malformed (s : String)
deriving DecidableEq, Repr

/-- The `jose.JWTError` failure modes the codec distinguishes. -/
inductive JWTErr where
  | invalidToken
  | wrongTokenType
  | missingSubject
deriving DecidableEq, Repr

/-- `create_access_token(user_id, email)`: short-lived access token with
`exp = now + ACCESS_TOKEN_EXPIRE_MINUTES` and `iat = now`. -/
def create_access_token (cfg : Settings) (user_id email : String) (now : Nat) : Token :=
  .signed
    { sub := some user_id
      email := some email
      type := ACCESS_TOKEN_TYPE
      exp := now + cfg.accessTokenExpireMinutes * 60
      iat := now }

/-- `create_refresh_token(user_id)`: long-lived refresh token with
`exp = now + REFRESH_TOKEN_EXPIRE_DAYS` and no email claim. -/
def create_refresh_token (cfg : Settings) (user_id : String) (now : Nat) : Token :=
  .signed
    { sub := some user_id
      email := none
      type := REFRESH_TOKEN_TYPE
      exp := now + cfg.refreshTokenExpireDays * 86400
      iat := now }

/-- `decode_token(token)`: `jwt.decode` against the shared secret.  Fails with
`JWTError` when the signature or structure is invalid, or when the `exp`
claim has passed (RFC 7519: valid while `now < exp`). -/
def decode_token (t : Token) (now : Nat) : Except JWTErr TokenPayload :=
  match t with
  | .malformed _ => .error .invalidToken
  | .signed p => if now < p.exp then .ok p else .error .invalidToken

/-- `verify_access_token(token)`: decode, then require `type == "access"` and
a present `sub` claim. -/
def verify_access_token (t : Token) (now : Nat) : Except JWTErr TokenPayload :=
  match decode_token t now with
  | .error e => .error e
  | .ok p =>
    if p.type ≠ ACCESS_TOKEN_TYPE then .error .wrongTokenType
    else if p.sub = none then .error .missingSubject
    else .ok p

/-- `verify_refresh_token(token)`: decode, then require `type == "refresh"`
and a present `sub` claim. -/
def verify_refresh_token (t : Token) (now : Nat) : Except JWTErr TokenPayload :=
  match decode_token t now with
  | .error e => .error e
  | .ok p =>
    if p.type ≠ REFRESH_TOKEN_TYPE then .error .wrongTokenType
    else if p.sub = none then .error .missingSubject
    else .ok p

example :
    verify_access_token (create_access_token {} "u1" "a@x.com" 100) 200 =
      .ok { sub := some "u1", email := some "a@x.com", type := "access",
            exp := 1000, iat := 100 } := by rfl

example : verify_access_token (create_refresh_token {} "u1" 0) 5 =
    .error .wrongTokenType := by rfl

/-! ## Data model (`backend/app/models/`) -/

/-- `User` (`backend/app/models/user.py`).  `created_at`/`updated_at` audit
columns are omitted (no claim mentions them). -/
structure User where
  id : String
  email : String
  name : String
  avatar_url : Option String
  oauth_provider : String
  oauth_id : String
  stripe_customer_id : Option String
  plan : String
deriving DecidableEq, Repr

/-- `RefreshToken` (`backend/app/models/refresh_token.py`).  The `token`
column (the stored JWT string, unique) is modelled as a `Token` value. -/
structure RefreshTokenRec where
  id : String
  user_id : String
  token : Token
  is_revoked : Bool
  expires_at : Nat
deriving DecidableEq, Repr

/-- The workflow graph payload (`graph_data`, a JSONB column).  The storage
layer treats it as a schema-free document and no claim inspects its
contents, so it is carried as an opaque serialized value. -/
structure GraphData where
  dump : String := ""
deriving DecidableEq, Repr

/-- `Workflow` (`backend/app/models/workflow.py`); audit columns omitted. -/
structure Workflow where
  id : String
  owner_id : String
  name : String
  description : Option String
  graph_data : GraphData
  is_active : Bool
  concurrency_policy : String
  version : Nat
deriving DecidableEq, Repr

/-- The relational store the services run against. -/
structure DB where
  users : List User
  refresh_tokens : List RefreshTokenRec
  workflows : List Workflow
deriving DecidableEq, Repr

/-- Replace the first element satisfying `p` by its image under `f`.  This is
how an in-place mutation of the single ORM row returned by
`scalar_one_or_none` acts on the stored list. -/
def updateFirst (p : α → Bool) (f : α → α) : List α → List α
  | [] => []
  | x :: xs => if p x then f x :: xs else x :: updateFirst p f xs

/-- Decidable equality of `Except` results, used to evaluate the services'
outcomes on concrete inputs. -/
instance [DecidableEq ε] [DecidableEq α] : DecidableEq (Except ε α)
  | .ok a, .ok b =>
    if h : a = b then .isTrue (by rw [h]) else .isFalse (by simp [h])
  | .ok _, .error _ => .isFalse (by simp)
  | .error _, .ok _ => .isFalse (by simp)
  | .error a, .error b =>
    if h : a = b then .isTrue (by rw [h]) else .isFalse (by simp [h])

/-! ## Auth service (`backend/app/services/auth_service.py`) -/

/-- The `BadRequestException` failures `auth_service` raises in the refresh
flow, plus the integrity error a `flush` raises when the unique `token`
column collides. -/
inductive AuthError where
  | invalidOrExpiredToken
  | tokenRevokedOrUnknown
  | tokenExpired
  | userNotFound
  | tokenNotUnique
  | emailNotUnique
deriving DecidableEq, Repr

/-- The verified Google tokeninfo payload fields `get_or_create_user` reads:
`sub`, `email`, and the optional `name` and `picture` keys.
(`verify_google_token` itself is an external HTTP exchange; the service
functions receive its already-verified result.) -/
structure GooglePayload where
  sub : String
  email : String
  name : Option String
  picture : Option String
deriving DecidableEq, Repr

/-- `get_or_create_user(db, google_payload)`: find an existing user by
`oauth_id`; if found, overwrite `name`/`avatar_url` from the payload (keeping
the old value when the payload lacks the key) and return `(user, false)` —
this branch's `flush` touches no unique column and cannot fail; otherwise
insert a new user built from the payload and return `(user, true)`.  The
creation branch's `flush` raises an integrity error when the unique `email`
column already holds this address (the unique `oauth_id` column cannot
collide there: the lookup just returned no row for it).  The generated UUID
primary key is the `fresh_id` argument. -/
def get_or_create_user (db : DB) (google_payload : GooglePayload)
    (fresh_id : String) : Except AuthError (DB × User × Bool) :=
  let oauth_id := google_payload.sub
  match db.users.find? (fun u => u.oauth_id == oauth_id) with
  | some user =>
    let updated := { user with
      name := google_payload.name.getD user.name
      avatar_url :=
        match google_payload.picture with
        | some p => some p
        | none => user.avatar_url }
    .ok ({ db with users :=
        updateFirst (fun u => u.oauth_id == oauth_id) (fun _ => updated) db.users },
      updated, false)
  | none =>
    let user : User :=
      { id := fresh_id
        email := google_payload.email
        name := google_payload.name.getD ""
        avatar_url := google_payload.picture
        oauth_provider := "google"
        oauth_id := oauth_id
        stripe_customer_id := none
        plan := "free" }
    if db.users.any (fun u => u.email == google_payload.email) then
      .error .emailNotUnique
    else
      .ok ({ db with users := db.users ++ [user] }, user, true)

/-- `store_refresh_token(db, user_id, token)`: insert a row with
`is_revoked = false` (column default) and
`expires_at = now + REFRESH_TOKEN_EXPIRE_DAYS`.  The `flush` raises an
integrity error when the unique `token` column already holds this string. -/
def store_refresh_token (cfg : Settings) (db : DB) (user_id : String)
    (token : Token) (fresh_id : String) (now : Nat) :
    Except AuthError (DB × RefreshTokenRec) :=
  let expires_at := now + cfg.refreshTokenExpireDays * 86400
  let refresh_token : RefreshTokenRec :=
    { id := fresh_id
      user_id := user_id
      token := token
      is_revoked := false
      expires_at := expires_at }
  if db.refresh_tokens.any (fun r => r.token == token) then
    .error .tokenNotUnique
  else
    .ok ({ db with refresh_tokens := db.refresh_tokens ++ [refresh_token] },
         refresh_token)

/-- `authenticate_with_google(db, credential)` after the external provider
verification (step 1): get or create the user, mint access and refresh
tokens, and persist the refresh token.  A persistence failure propagates (the
function raises instead of returning the minted tokens). -/
def authenticate_with_google (cfg : Settings) (db : DB)
    (google_payload : GooglePayload) (fresh_user_id fresh_token_id : String)
    (now : Nat) : Except AuthError (DB × User × Token × Token) :=
  match get_or_create_user db google_payload fresh_user_id with
  | .error e => .error e
  | .ok (db1, user, _is_new) =>
    let access_token := create_access_token cfg user.id user.email now
    let refresh_token := create_refresh_token cfg user.id now
    match store_refresh_token cfg db1 user.id refresh_token fresh_token_id now with
    | .error e => .error e
    | .ok (db2, _) => .ok (db2, user, access_token, refresh_token)

/-- `refresh_access_token(db, refresh_token_str)`: decode as a refresh token
(any `JWTError` becomes `invalidOrExpiredToken`); look the string up among
stored rows with `is_revoked = false`; check the stored expiry; load the
user; mint a new access token.  The function only reads the store, so the
`DB` it returns is its input unchanged — in particular no new refresh token
is created or stored. -/
def refresh_access_token (cfg : Settings) (db : DB) (refresh_token_str : Token)
    (now : Nat) : Except AuthError (DB × User × Token) :=
  match verify_refresh_token refresh_token_str now with
  | .error _ => .error .invalidOrExpiredToken
  | .ok payload =>
    -- `payload["sub"]`; `verify_refresh_token` guarantees the claim is present
    let user_id := payload.sub.getD ""
    match db.refresh_tokens.find?
        (fun r => r.token == refresh_token_str && r.is_revoked == false) with
    | none => .error .tokenRevokedOrUnknown
    | some stored_token =>
      if stored_token.expires_at < now then .error .tokenExpired
      else
        match db.users.find? (fun u => u.id == user_id) with
        | none => .error .userNotFound
        | some user =>
          .ok (db, user, create_access_token cfg user.id user.email now)

/-- `revoke_refresh_token(db, refresh_token_str)`: look the string up; if a
row is found set its `is_revoked` flag, otherwise do nothing.  The function
always succeeds. -/
def revoke_refresh_token (db : DB) (refresh_token_str : Token) : DB :=
  match db.refresh_tokens.find? (fun r => r.token == refresh_token_str) with
  | none => db
  | some _ =>
    { db with refresh_tokens :=
        (updateFirst (fun r => r.token == refresh_token_str)
          (fun r => { r with is_revoked := true }) db.refresh_tokens) }

/-! ## Auth-service operations as a transition system

Each HTTP request runs one service call inside a transactional unit of work;
a raised exception rolls the transaction back, leaving the store as it was. -/

/-- One auth-service operation together with its request-time inputs. -/
inductive AuthOp where
  | login (google_payload : GooglePayload)
      (fresh_user_id fresh_token_id : String) (now : Nat)
  | refresh (t : Token) (now : Nat)
  | revoke (t : Token)
deriving DecidableEq, Repr

/-- The store after one operation: the successful result, or the unchanged
store when the operation raised (transaction rollback). -/
def runOp (cfg : Settings) (db : DB) : AuthOp → DB
  | .login payload uid tid now =>
    match authenticate_with_google cfg db payload uid tid now with
    | .ok (db2, _, _, _) => db2
    | .error _ => db
  | .refresh t now =>
    match refresh_access_token cfg db t now with
    | .ok (db2, _, _) => db2
    | .error _ => db
  | .revoke t => revoke_refresh_token db t

/-- The store after a sequence of operations. -/
def runOps (cfg : Settings) (db : DB) (ops : List AuthOp) : DB :=
  ops.foldl (runOp cfg) db

/-- The unique constraint on `RefreshToken.token`: no two stored rows hold
the same token string. -/
def tokensUnique (db : DB) : Prop :=
  (db.refresh_tokens.map (fun r => r.token)).Nodup

/-! ## Workflow service (`backend/app/services/workflow_service.py`) -/

/-- The exceptions the workflow service raises
(`backend/app/core/exceptions.py`): `NotFoundException(resource, id)` (404)
and `ForbiddenException` (403). -/
inductive WfError where
  | notFound (resource : String) (resource_id : String)
  | forbidden
deriving DecidableEq, Repr

/-- `WorkflowCreate` request schema (`backend/app/schemas/workflow.py`). -/
structure WorkflowCreate where
  name : String
  description : Option String := none
  graph_data : GraphData := {}
  concurrency_policy : String := "allow_parallel"
deriving DecidableEq, Repr

/-- `WorkflowUpdate` partial patch; an outer `none` marks a field the request
left unset (pydantic `model_dump(exclude_unset=True)` drops it). -/
structure WorkflowUpdate where
  name : Option String := none
  description : Option (Option String) := none
  graph_data : Option GraphData := none
  is_active : Option Bool := none
  concurrency_policy : Option String := none
deriving DecidableEq, Repr

/-- The `setattr` loop of `update_workflow`: overwrite exactly the fields the
patch set.  The patch schema has no `version` field. -/
def applyUpdate (w : Workflow) (data : WorkflowUpdate) : Workflow :=
  { w with
    name := data.name.getD w.name
    description := data.description.getD w.description
    graph_data := data.graph_data.getD w.graph_data
    is_active := data.is_active.getD w.is_active
    concurrency_policy := data.concurrency_policy.getD w.concurrency_policy }

/-- `create_workflow(db, owner_id, data)`: insert a row with the column
defaults `is_active = true` and `version = 1`. -/
def create_workflow (db : DB) (owner_id : String) (data : WorkflowCreate)
    (fresh_id : String) : DB × Workflow :=
  let workflow : Workflow :=
    { id := fresh_id
      owner_id := owner_id
      name := data.name
      description := data.description
      graph_data := data.graph_data
      is_active := true
      concurrency_policy := data.concurrency_policy
      version := 1 }
  ({ db with workflows := db.workflows ++ [workflow] }, workflow)

/-- `get_workflows(db, owner_id, page, per_page)`: the caller's workflows,
newest first, one offset page, together with the total count. -/
def get_workflows (db : DB) (owner_id : String) (page per_page : Nat) :
    List Workflow × Nat :=
  let owned := db.workflows.filter (fun w => w.owner_id == owner_id)
  let total := owned.length
  let offset := (page - 1) * per_page
  ((owned.reverse.drop offset).take per_page, total)

/-- `get_workflow_by_id(db, workflow_id, owner_id)`: load by id, then
`NotFound` when absent, `Forbidden` when the caller is not the owner.  All
single-workflow operations go through this lookup. -/
def get_workflow_by_id (db : DB) (workflow_id owner_id : String) :
    Except WfError Workflow :=
  match db.workflows.find? (fun w => w.id == workflow_id) with
  | none => .error (.notFound "Workflow" workflow_id)
  | some workflow =>
    if workflow.owner_id ≠ owner_id then .error .forbidden
    else .ok workflow

/-- `update_workflow(db, workflow_id, owner_id, data)`: shared lookup, apply
the patch fields, then increment `version` on every save. -/
def update_workflow (db : DB) (workflow_id owner_id : String)
    (data : WorkflowUpdate) : Except WfError (DB × Workflow) :=
  match get_workflow_by_id db workflow_id owner_id with
  | .error e => .error e
  | .ok workflow =>
    let workflow := { applyUpdate workflow data with version := workflow.version + 1 }
    .ok ({ db with workflows :=
        (updateFirst (fun w => w.id == workflow_id) (fun _ => workflow) db.workflows) },
      workflow)

/-- Drop the first element satisfying `p`: the effect of `db.delete` on the
single row the shared lookup returned. -/
def eraseFirst (p : α → Bool) : List α → List α
  | [] => []
  | x :: xs => if p x then xs else x :: eraseFirst p xs

/-- `delete_workflow(db, workflow_id, owner_id)`: shared lookup, then delete
the row. -/
def delete_workflow (db : DB) (workflow_id owner_id : String) :
    Except WfError DB :=
  match get_workflow_by_id db workflow_id owner_id with
  | .error e => .error e
  | .ok _ =>
    .ok { db with workflows := eraseFirst (fun w => w.id == workflow_id) db.workflows }

/-! ## Workflow router (`backend/app/routers/workflows.py`)

Every handler passes the hardcoded constant `TEMP_USER_ID` to the service
layer.  The `caller` argument of each handler stands for the authenticated
Bearer identity of the incoming request; the handlers declare no auth
dependency and never consult it. -/

/-- "Temporary: hardcoded user ID until we implement auth in Phase 2." -/
def TEMP_USER_ID : String := "temp-user-001"

/-- `POST /api/workflows`. -/
def router_create_workflow (db : DB) (caller : User) (data : WorkflowCreate)
    (fresh_id : String) : DB × Workflow :=
  let _ := caller
  create_workflow db TEMP_USER_ID data fresh_id

/-- `GET /api/workflows`. -/
def router_list_workflows (db : DB) (caller : User) (page per_page : Nat) :
    List Workflow × Nat :=
  let _ := caller
  get_workflows db TEMP_USER_ID page per_page

/-- `GET /api/workflows/{workflow_id}`. -/
def router_get_workflow (db : DB) (caller : User) (workflow_id : String) :
    Except WfError Workflow :=
  let _ := caller
  get_workflow_by_id db workflow_id TEMP_USER_ID

/-- `PUT /api/workflows/{workflow_id}`. -/
def router_update_workflow (db : DB) (caller : User) (workflow_id : String)
    (data : WorkflowUpdate) : Except WfError (DB × Workflow) :=
  let _ := caller
  update_workflow db workflow_id TEMP_USER_ID data

/-- `DELETE /api/workflows/{workflow_id}`. -/
def router_delete_workflow (db : DB) (caller : User) (workflow_id : String) :
    Except WfError DB :=
  let _ := caller
  delete_workflow db workflow_id TEMP_USER_ID

/-! ## Helper lemmas about `updateFirst` and `find?` -/

theorem updateFirst_of_find?_none (p : α → Bool) (f : α → α) (l : List α)
    (h : l.find? p = none) : updateFirst p f l = l := by
  induction l with
  | nil => rfl
  | cons x xs ih =>
    cases hp : p x with
    | true => simp [List.find?_cons_of_pos _ hp] at h
    | false =>
      rw [List.find?_cons_of_neg _ (by simp [hp])] at h
      simp [updateFirst, hp, ih h]

theorem find?_updateFirst (p : α → Bool) (f : α → α) (l : List α) (r : α)
    (hf : ∀ x, p x = true → p (f x) = true)
    (h : l.find? p = some r) : (updateFirst p f l).find? p = some (f r) := by
  induction l with
  | nil => simp at h
  | cons x xs ih =>
    cases hp : p x with
    | true =>
      rw [List.find?_cons_of_pos _ hp] at h
      injection h with h
      subst h
      simp [updateFirst, hp, List.find?_cons_of_pos _ (hf x hp)]
    | false =>
      rw [List.find?_cons_of_neg _ (by simp [hp])] at h
      simp [updateFirst, hp, ih h]

theorem updateFirst_append_none (p : α → Bool) (f : α → α) (l₁ l₂ : List α)
    (h : l₁.find? p = none) :
    updateFirst p f (l₁ ++ l₂) = l₁ ++ updateFirst p f l₂ := by
  induction l₁ with
  | nil => rfl
  | cons x xs ih =>
    cases hp : p x with
    | true => simp [List.find?_cons_of_pos _ hp] at h
    | false =>
      rw [List.find?_cons_of_neg _ (by simp [hp])] at h
      simp [updateFirst, hp, ih h]

theorem updateFirst_map_eq (p : α → Bool) (f : α → α) (g : α → β) (l : List α)
    (hg : ∀ x, g (f x) = g x) : (updateFirst p f l).map g = l.map g := by
  induction l with
  | nil => rfl
  | cons x xs ih =>
    cases hp : p x with
    | true => simp [updateFirst, hp, hg]
    | false => simp [updateFirst, hp, ih]

theorem updateFirst_idem (p : α → Bool) (f : α → α) (l : List α)
    (hf : ∀ x, p x = true → p (f x) = true)
    (hff : ∀ x, f (f x) = f x) :
    updateFirst p f (updateFirst p f l) = updateFirst p f l := by
  induction l with
  | nil => rfl
  | cons x xs ih =>
    cases hp : p x with
    | true => simp [updateFirst, hp, hf x hp, hff]
    | false => simp [updateFirst, hp, ih]

/-! ## Claim theorems -/

/-- C2: for all (subject, email) pairs and times, `verify_access_token` on
the token produced by `create_access_token(subject, email)` returns claims
carrying exactly that subject, that email and the expiry encoded at issuance,
and it succeeds iff the verification time is before that expiry (issuance
time + access TTL). -/
theorem access_token_roundtrip (cfg : Settings) (subject email : String)
    (t_issue t_now : Nat) :
    (∃ p, verify_access_token (create_access_token cfg subject email t_issue) t_now
          = .ok p
        ∧ p.sub = some subject ∧ p.email = some email
        ∧ p.exp = t_issue + cfg.accessTokenExpireMinutes * 60)
      ↔ t_now < t_issue + cfg.accessTokenExpireMinutes * 60 := by
  unfold verify_access_token create_access_token decode_token
  by_cases h : t_now < t_issue + cfg.accessTokenExpireMinutes * 60
  · simp [h, ACCESS_TOKEN_TYPE]
  · simp [h]

/-- C10: on any token that decodes successfully, `verify_access_token` fails
with `wrongTokenType` whenever the `type` claim is `"refresh"` (and
`verify_refresh_token` whenever it is `"access"`); a token whose type check
passes but whose `sub` claim is absent fails with `missingSubject`; and
neither verifier ever succeeds on a token of the other type. -/
theorem verify_rejects_wrong_type_and_missing_sub (t : Token) (now : Nat)
    (p : TokenPayload) (hdec : decode_token t now = .ok p) :
    (p.type = REFRESH_TOKEN_TYPE →
      verify_access_token t now = .error .wrongTokenType)
    ∧ (p.type = ACCESS_TOKEN_TYPE →
      verify_refresh_token t now = .error .wrongTokenType)
    ∧ (p.type = ACCESS_TOKEN_TYPE → p.sub = none →
      verify_access_token t now = .error .missingSubject)
    ∧ (p.type = REFRESH_TOKEN_TYPE → p.sub = none →
      verify_refresh_token t now = .error .missingSubject)
    ∧ (p.type = REFRESH_TOKEN_TYPE → ∀ q, verify_access_token t now ≠ .ok q)
    ∧ (p.type = ACCESS_TOKEN_TYPE → ∀ q, verify_refresh_token t now ≠ .ok q) := by
  unfold verify_access_token verify_refresh_token
  rw [hdec]
  unfold ACCESS_TOKEN_TYPE REFRESH_TOKEN_TYPE
  refine ⟨?_, ?_, ?_, ?_, ?_, ?_⟩ <;> intro h
  · simp [h]
  · simp [h]
  · intro hs; simp [h, hs]
  · intro hs; simp [h, hs]
  · intro q; simp [h]
  · intro q; simp [h]

/-- Witness for C10 at a concrete refresh-typed token. -/
theorem verify_rejects_wrong_type_witness :
    verify_access_token
        (.signed { sub := some "u1", email := none, type := "refresh",
                   exp := 10, iat := 0 }) 0
      = .error .wrongTokenType :=
  (verify_rejects_wrong_type_and_missing_sub
      (.signed { sub := some "u1", email := none, type := "refresh",
                 exp := 10, iat := 0 }) 0
      { sub := some "u1", email := none, type := "refresh", exp := 10, iat := 0 }
      (by rfl)).1 rfl

/-- C9: for single-workflow read/update/delete, a missing id yields
`NotFound`, an existing workflow with a different owner yields `Forbidden`
(never `NotFound`), and `update_workflow`/`delete_workflow` inherit exactly
the error of the shared lookup `get_workflow_by_id`. -/
theorem owner_scoped_lookup_shared (db : DB) (workflow_id owner_id : String)
    (data : WorkflowUpdate) :
    (db.workflows.find? (fun w => w.id == workflow_id) = none →
      get_workflow_by_id db workflow_id owner_id
        = .error (.notFound "Workflow" workflow_id))
    ∧ (∀ w, db.workflows.find? (fun w0 => w0.id == workflow_id) = some w →
        w.owner_id ≠ owner_id →
        get_workflow_by_id db workflow_id owner_id = .error .forbidden)
    ∧ (∀ e, get_workflow_by_id db workflow_id owner_id = .error e →
        update_workflow db workflow_id owner_id data = .error e
        ∧ delete_workflow db workflow_id owner_id = .error e) := by
  refine ⟨?_, ?_, ?_⟩
  · intro h
    unfold get_workflow_by_id
    rw [h]
  · intro w hw hown
    unfold get_workflow_by_id
    rw [hw]
    simp [hown]
  · intro e he
    constructor
    · unfold update_workflow
      rw [he]
    · unfold delete_workflow
      rw [he]

/-- Witness for C9: a workflow owned by `alice`, requested by `bob`, yields
`Forbidden`. -/
theorem owner_scoped_lookup_witness :
    get_workflow_by_id
        { users := [], refresh_tokens := [],
          workflows := [{ id := "w1", owner_id := "alice", name := "X",
                          description := none, graph_data := {},
                          is_active := true,
                          concurrency_policy := "allow_parallel",
                          version := 1 }] }
        "w1" "bob"
      = .error .forbidden :=
  (owner_scoped_lookup_shared
      { users := [], refresh_tokens := [],
        workflows := [{ id := "w1", owner_id := "alice", name := "X",
                        description := none, graph_data := {},
                        is_active := true,
                        concurrency_policy := "allow_parallel",
                        version := 1 }] }
      "w1" "bob" {}).2.1
    { id := "w1", owner_id := "alice", name := "X", description := none,
      graph_data := {}, is_active := true,
      concurrency_policy := "allow_parallel", version := 1 }
    (by rfl) (by decide)

/-- C5: `revoke_refresh_token` always succeeds: when a stored row matches the
token string its `is_revoked` flag is set to true, when none matches the
store is returned unchanged, and the operation is idempotent — a repeated
call is a no-op. -/
theorem revoke_idempotent_total (db : DB) (t : Token) :
    (db.refresh_tokens.find? (fun r => r.token == t) = none →
      revoke_refresh_token db t = db)
    ∧ (∀ s, db.refresh_tokens.find? (fun r => r.token == t) = some s →
      (revoke_refresh_token db t).refresh_tokens.find? (fun r => r.token == t)
        = some { s with is_revoked := true })
    ∧ revoke_refresh_token (revoke_refresh_token db t) t
        = revoke_refresh_token db t := by
  have hpres : ∀ x : RefreshTokenRec, (x.token == t) = true →
      (({ x with is_revoked := true } : RefreshTokenRec).token == t) = true :=
    fun _ h => h
  refine ⟨?_, ?_, ?_⟩
  · intro h
    unfold revoke_refresh_token
    rw [h]
  · intro s hs
    unfold revoke_refresh_token
    rw [hs]
    exact find?_updateFirst _ _ _ _ hpres hs
  · cases hfind : db.refresh_tokens.find? (fun r => r.token == t) with
    | none =>
      unfold revoke_refresh_token
      rw [hfind]
      rw [hfind]
    | some s =>
      have h3 := find?_updateFirst (fun r => r.token == t)
        (fun r => { r with is_revoked := true }) db.refresh_tokens s hpres hfind
      have h4 := updateFirst_idem (fun r => r.token == t)
        (fun r => { r with is_revoked := true }) db.refresh_tokens hpres
        (fun _ => rfl)
      unfold revoke_refresh_token
      rw [hfind]
      simp only [h3, h4]

/-- Witness for C5: revoking a stored token flips its flag; revoking an
unknown token is a successful no-op. -/
theorem revoke_idempotent_witness :
    (revoke_refresh_token
        { users := [], refresh_tokens := [], workflows := [] }
        (.malformed "nope")
      = { users := [], refresh_tokens := [], workflows := [] })
    ∧ (revoke_refresh_token
        { users := [],
          refresh_tokens := [{ id := "rt1", user_id := "u1",
                               token := .malformed "tok", is_revoked := false,
                               expires_at := 100 }],
          workflows := [] }
        (.malformed "tok")).refresh_tokens.find?
          (fun r => r.token == .malformed "tok")
      = some { id := "rt1", user_id := "u1", token := .malformed "tok",
               is_revoked := true, expires_at := 100 } :=
  ⟨(revoke_idempotent_total
      { users := [], refresh_tokens := [], workflows := [] }
      (.malformed "nope")).1 (by rfl),
   (revoke_idempotent_total
      { users := [],
        refresh_tokens := [{ id := "rt1", user_id := "u1",
                             token := .malformed "tok", is_revoked := false,
                             expires_at := 100 }],
        workflows := [] }
      (.malformed "tok")).2.1
     { id := "rt1", user_id := "u1", token := .malformed "tok",
       is_revoked := false, expires_at := 100 }
     (by rfl)⟩

/-- C3 counterexample: a request authenticated as Bearer user `user-b`
creates a workflow whose stored owner id is the hardcoded `temp-user-001`,
not the caller's id, and a different Bearer user `user-a` having created a
workflow, `user-b` reads it successfully instead of receiving `Forbidden` —
the owner scopes of distinct Bearer users are not disjoint. -/
theorem workflow_bearer_scoping_counterexample :
    ((router_create_workflow
        { users := [], refresh_tokens := [], workflows := [] }
        { id := "user-b", email := "b@x.com", name := "B", avatar_url := none,
          oauth_provider := "google", oauth_id := "g-b",
          stripe_customer_id := none, plan := "free" }
        { name := "X" } "wf-1").2.owner_id = "temp-user-001")
    ∧ (decide ((router_create_workflow
        { users := [], refresh_tokens := [], workflows := [] }
        { id := "user-b", email := "b@x.com", name := "B", avatar_url := none,
          oauth_provider := "google", oauth_id := "g-b",
          stripe_customer_id := none, plan := "free" }
        { name := "X" } "wf-1").2.owner_id = "user-b") = false)
    ∧ (router_get_workflow
        (router_create_workflow
          { users := [], refresh_tokens := [], workflows := [] }
          { id := "user-a", email := "a@x.com", name := "A", avatar_url := none,
            oauth_provider := "google", oauth_id := "g-a",
            stripe_customer_id := none, plan := "free" }
          { name := "X" } "wf-1").1
        { id := "user-b", email := "b@x.com", name := "B", avatar_url := none,
          oauth_provider := "google", oauth_id := "g-b",
          stripe_customer_id := none, plan := "free" }
        "wf-1"
      = .ok { id := "wf-1", owner_id := "temp-user-001", name := "X",
              description := none, graph_data := {}, is_active := true,
              concurrency_policy := "allow_parallel", version := 1 }) := by
  refine ⟨by rfl, by decide, by rfl⟩

/-- C3 (amended): every workflow HTTP handler passes the hardcoded constant
`TEMP_USER_ID` as the owner id to the service layer, whatever the Bearer
identity of the request is; in particular a created workflow is owned by
`TEMP_USER_ID`, so all Bearer users operate on one shared owner scope. -/
theorem router_uses_hardcoded_owner (db : DB) (caller : User)
    (data : WorkflowCreate) (udata : WorkflowUpdate)
    (fresh_id workflow_id : String) (page per_page : Nat) :
    router_create_workflow db caller data fresh_id
        = create_workflow db TEMP_USER_ID data fresh_id
    ∧ router_list_workflows db caller page per_page
        = get_workflows db TEMP_USER_ID page per_page
    ∧ router_get_workflow db caller workflow_id
        = get_workflow_by_id db workflow_id TEMP_USER_ID
    ∧ router_update_workflow db caller workflow_id udata
        = update_workflow db workflow_id TEMP_USER_ID udata
    ∧ router_delete_workflow db caller workflow_id
        = delete_workflow db workflow_id TEMP_USER_ID
    ∧ (router_create_workflow db caller data fresh_id).2.owner_id
        = TEMP_USER_ID :=
  ⟨rfl, rfl, rfl, rfl, rfl, rfl⟩

/-- C7: in the login flow, a failure while persisting the refresh token
propagates out of `authenticate_with_google`: the function fails with the
same error instead of returning the freshly minted access/refresh tokens. -/
theorem login_atomic_at_persistence (cfg : Settings) (db : DB)
    (google_payload : GooglePayload) (fresh_user_id fresh_token_id : String)
    (now : Nat) (e : AuthError) (db1 : DB) (user : User) (is_new : Bool)
    (hg : get_or_create_user db google_payload fresh_user_id
          = .ok (db1, user, is_new))
    (h : store_refresh_token cfg db1 user.id
          (create_refresh_token cfg user.id now) fresh_token_id now
          = .error e) :
    authenticate_with_google cfg db google_payload fresh_user_id fresh_token_id
        now = .error e := by
  unfold authenticate_with_google
  rw [hg]
  simp only
  rw [h]

/-- Witness for C7: the user already holds the very refresh-token string the
login would store (same subject, same issue time), so the unique-column
insert fails and `authenticate_with_google` fails with that error. -/
theorem login_atomic_witness :
    authenticate_with_google {}
        { users := [{ id := "u-1", email := "a@x.com", name := "A",
                      avatar_url := none, oauth_provider := "google",
                      oauth_id := "g-1", stripe_customer_id := none,
                      plan := "free" }],
          refresh_tokens := [{ id := "rt0", user_id := "u-1",
                               token := .signed { sub := some "u-1",
                                                  email := none,
                                                  type := "refresh",
                                                  exp := 604800, iat := 0 },
                               is_revoked := false, expires_at := 604800 }],
          workflows := [] }
        { sub := "g-1", email := "a@x.com", name := none, picture := none }
        "u-x" "rt-x" 0
      = .error .tokenNotUnique :=
  login_atomic_at_persistence {}
    { users := [{ id := "u-1", email := "a@x.com", name := "A",
                  avatar_url := none, oauth_provider := "google",
                  oauth_id := "g-1", stripe_customer_id := none,
                  plan := "free" }],
      refresh_tokens := [{ id := "rt0", user_id := "u-1",
                           token := .signed { sub := some "u-1", email := none,
                                              type := "refresh",
                                              exp := 604800, iat := 0 },
                           is_revoked := false, expires_at := 604800 }],
      workflows := [] }
    { sub := "g-1", email := "a@x.com", name := none, picture := none }
    "u-x" "rt-x" 0 .tokenNotUnique
    { users := [{ id := "u-1", email := "a@x.com", name := "A",
                  avatar_url := none, oauth_provider := "google",
                  oauth_id := "g-1", stripe_customer_id := none,
                  plan := "free" }],
      refresh_tokens := [{ id := "rt0", user_id := "u-1",
                           token := .signed { sub := some "u-1", email := none,
                                              type := "refresh",
                                              exp := 604800, iat := 0 },
                           is_revoked := false, expires_at := 604800 }],
      workflows := [] }
    { id := "u-1", email := "a@x.com", name := "A", avatar_url := none,
      oauth_provider := "google", oauth_id := "g-1",
      stripe_customer_id := none, plan := "free" }
    false (by rfl) (by rfl)

/-- C6: two logins with the same external subject id yield the same user id:
on a store where neither that subject nor the payload's email is taken, the
first call creates the user (`is_new = true`), the second finds rather than
duplicates it (`is_new = false`, same id, exactly one record for that
subject), and the second call overwrites the mutable profile fields (name,
avatar) from its payload, keeping the old value where the payload lacks the
key. -/
theorem login_identity_idempotent (db : DB) (p1 p2 : GooglePayload)
    (fresh_id1 fresh_id2 : String)
    (hsub : p2.sub = p1.sub)
    (habs : ∀ u ∈ db.users, u.oauth_id ≠ p1.sub)
    (hemail : ∀ u ∈ db.users, u.email ≠ p1.email) :
    ∃ db1 u1 db2 u2,
      get_or_create_user db p1 fresh_id1 = .ok (db1, u1, true)
      ∧ get_or_create_user db1 p2 fresh_id2 = .ok (db2, u2, false)
      ∧ u2.id = u1.id
      ∧ (db2.users.filter (fun u => u.oauth_id == p1.sub)).length = 1
      ∧ u2.name = p2.name.getD u1.name
      ∧ u2.avatar_url = (match p2.picture with
          | some pic => some pic
          | none => u1.avatar_url) := by
  have hne : ∀ u ∈ db.users, (u.oauth_id == p1.sub) = false := by
    intro u hu
    simp [habs u hu]
  have h1 : db.users.find? (fun u => u.oauth_id == p1.sub) = none :=
    List.find?_eq_none.mpr (fun u hu => by simp [hne u hu])
  have hany : db.users.any (fun u => u.email == p1.email) = false := by
    rw [List.any_eq_false]
    intro u hu
    simp [hemail u hu]
  let u0 : User :=
    { id := fresh_id1, email := p1.email, name := p1.name.getD "",
      avatar_url := p1.picture, oauth_provider := "google",
      oauth_id := p1.sub, stripe_customer_id := none, plan := "free" }
  let u1 : User :=
    { id := fresh_id1, email := p1.email,
      name := p2.name.getD (p1.name.getD ""),
      avatar_url :=
        match p2.picture with
        | some pic => some pic
        | none => p1.picture,
      oauth_provider := "google", oauth_id := p1.sub,
      stripe_customer_id := none, plan := "free" }
  have e1 : get_or_create_user db p1 fresh_id1
      = .ok ({ db with users := db.users ++ [u0] }, u0, true) := by
    simp only [get_or_create_user]
    rw [h1]
    dsimp only
    rw [if_neg (by simp [hany])]
  have h2 : (db.users ++ [u0]).find? (fun u => u.oauth_id == p2.sub)
      = some u0 := by
    rw [hsub, List.find?_append, h1]
    simp [u0]
  have e2 : get_or_create_user { db with users := db.users ++ [u0] }
        p2 fresh_id2
      = .ok ({ db with users :=
            (updateFirst (fun u => u.oauth_id == p2.sub) (fun _ => u1)
              (db.users ++ [u0])) },
          u1, false) := by
    simp only [get_or_create_user]
    rw [h2]
  have h2none : db.users.find? (fun u => u.oauth_id == p2.sub) = none := by
    rw [hsub]
    exact h1
  have e3 : updateFirst (fun u => u.oauth_id == p2.sub) (fun _ => u1)
        (db.users ++ [u0])
      = db.users ++ [u1] := by
    rw [updateFirst_append_none _ _ _ _ h2none]
    simp only [updateFirst]
    rw [if_pos (by simp [u0, hsub])]
  have hfilter : db.users.filter (fun u => u.oauth_id == p1.sub) = [] :=
    List.filter_eq_nil_iff.mpr (fun u hu => by simp [hne u hu])
  refine ⟨_, _, _, _, e1, e2, rfl, ?_, rfl, rfl⟩
  simp only [e3, List.filter_append, hfilter]
  simp [u1]

/-- Witness for C6: two concrete logins with subject `g-1` on an empty user
directory both succeed and return the same user id. -/
theorem login_identity_witness :
    ∃ db1 u1 db2 u2,
      get_or_create_user { users := [], refresh_tokens := [], workflows := [] }
          { sub := "g-1", email := "a@x.com", name := some "Al",
            picture := none } "u1"
        = .ok (db1, u1, true)
      ∧ get_or_create_user db1
          { sub := "g-1", email := "a@x.com", name := some "Bob",
            picture := some "pic2" } "u2"
        = .ok (db2, u2, false)
      ∧ u2.id = u1.id
      ∧ (db2.users.filter (fun u => u.oauth_id == "g-1")).length = 1
      ∧ u2.name = "Bob"
      ∧ u2.avatar_url = some "pic2" :=
  login_identity_idempotent { users := [], refresh_tokens := [], workflows := [] }
    { sub := "g-1", email := "a@x.com", name := some "Al", picture := none }
    { sub := "g-1", email := "a@x.com", name := some "Bob", picture := some "pic2" }
    "u1" "u2" rfl (by simp) (by simp)

/-- A successful `update_workflow` on a workflow whose id is fresh in the
rest of the store: the shared lookup finds the appended row, the patch is
applied, and the version is incremented. -/
theorem update_workflow_fresh (db : DB) (w : Workflow) (owner_id : String)
    (u : WorkflowUpdate)
    (hnone : db.workflows.find? (fun x => x.id == w.id) = none)
    (hown : w.owner_id = owner_id) :
    update_workflow { db with workflows := db.workflows ++ [w] } w.id owner_id u
      = .ok ({ db with workflows := db.workflows ++
                [{ applyUpdate w u with version := w.version + 1 }] },
             { applyUpdate w u with version := w.version + 1 }) := by
  have hfind : (db.workflows ++ [w]).find? (fun x => x.id == w.id) = some w := by
    rw [List.find?_append, hnone]
    simp
  have hget : get_workflow_by_id { db with workflows := db.workflows ++ [w] }
      w.id owner_id = .ok w := by
    unfold get_workflow_by_id
    simp only
    rw [hfind]
    simp [hown]
  unfold update_workflow
  rw [hget]
  dsimp only
  rw [updateFirst_append_none _ _ _ _ hnone]
  simp [updateFirst]

/-- C8: a successful `update_workflow` increments the stored version by
exactly 1, whatever fields the patch sets; a freshly created workflow has
version 1, and after two successful updates its version is 3. -/
theorem workflow_version_increments (db : DB)
    (workflow_id owner_id fresh_id : String) (cdata : WorkflowCreate)
    (u u1 u2 : WorkflowUpdate) :
    (∀ db2 w2, update_workflow db workflow_id owner_id u = .ok (db2, w2) →
      ∃ w, get_workflow_by_id db workflow_id owner_id = .ok w
        ∧ w2.version = w.version + 1)
    ∧ ((create_workflow db owner_id cdata fresh_id).2.version = 1)
    ∧ ((∀ w ∈ db.workflows, w.id ≠ fresh_id) →
        ∃ db2 w2 db3 w3,
          update_workflow (create_workflow db owner_id cdata fresh_id).1
              fresh_id owner_id u1 = .ok (db2, w2)
          ∧ w2.version = 2
          ∧ update_workflow db2 fresh_id owner_id u2 = .ok (db3, w3)
          ∧ w3.version = 3) := by
  refine ⟨?_, rfl, ?_⟩
  · intro db2 w2 h
    unfold update_workflow at h
    cases hget : get_workflow_by_id db workflow_id owner_id with
    | error e => rw [hget] at h; cases h
    | ok w =>
      rw [hget] at h
      simp only [Except.ok.injEq, Prod.mk.injEq] at h
      exact ⟨w, rfl, by rw [← h.2]⟩
  · intro hfresh
    have hnone : db.workflows.find? (fun x => x.id == fresh_id) = none :=
      List.find?_eq_none.mpr (fun x hx => by simp [hfresh x hx])
    let w0 : Workflow :=
      { id := fresh_id, owner_id := owner_id, name := cdata.name,
        description := cdata.description, graph_data := cdata.graph_data,
        is_active := true, concurrency_policy := cdata.concurrency_policy,
        version := 1 }
    let w2 : Workflow := { applyUpdate w0 u1 with version := w0.version + 1 }
    have e1 : update_workflow (create_workflow db owner_id cdata fresh_id).1
        fresh_id owner_id u1
        = .ok ({ db with workflows := db.workflows ++ [w2] }, w2) :=
      update_workflow_fresh db w0 owner_id u1 hnone rfl
    let w3 : Workflow := { applyUpdate w2 u2 with version := w2.version + 1 }
    have e2 : update_workflow { db with workflows := db.workflows ++ [w2] }
        fresh_id owner_id u2
        = .ok ({ db with workflows := db.workflows ++ [w3] }, w3) :=
      update_workflow_fresh db w2 owner_id u2 hnone rfl
    exact ⟨_, w2, _, w3, e1, rfl, e2, rfl⟩

/-- Witness for C8: on an empty store, create then update twice; the
versions are 1, 2, 3. -/
theorem workflow_version_witness :
    ((create_workflow { users := [], refresh_tokens := [], workflows := [] }
        "temp-user-001" { name := "X" } "w1").2.version = 1)
    ∧ ∃ db2 w2 db3 w3,
        update_workflow
            (create_workflow { users := [], refresh_tokens := [], workflows := [] }
              "temp-user-001" { name := "X" } "w1").1
            "w1" "temp-user-001" {} = .ok (db2, w2)
        ∧ w2.version = 2
        ∧ update_workflow db2 "w1" "temp-user-001" {} = .ok (db3, w3)
        ∧ w3.version = 3 :=
  ⟨(workflow_version_increments
      { users := [], refresh_tokens := [], workflows := [] }
      "w1" "temp-user-001" "w1" { name := "X" } {} {} {}).2.1,
   (workflow_version_increments
      { users := [], refresh_tokens := [], workflows := [] }
      "w1" "temp-user-001" "w1" { name := "X" } {} {} {}).2.2
     (by simp)⟩

/-- C1 (amended): `refresh_access_token` fails with `invalidOrExpiredToken`
when `verify_refresh_token` fails — on a decode error, a non-refresh `type`
claim, or an absent subject claim; otherwise fails `tokenRevokedOrUnknown`
when no stored row matches the exact token string with `is_revoked = false`;
otherwise fails `tokenExpired` when the stored expiry is before the current
time; otherwise fails `userNotFound` when no user carries the token's
subject id; otherwise returns the user and a new access token, and the store
comes back unchanged — the refresh token is not rotated (no new refresh
token is created or stored). -/
theorem refresh_access_token_cases (cfg : Settings) (db : DB) (t : Token)
    (now : Nat) :
    (∀ e, verify_refresh_token t now = .error e →
      refresh_access_token cfg db t now = .error .invalidOrExpiredToken)
    ∧ (∀ p, verify_refresh_token t now = .ok p →
      db.refresh_tokens.find?
          (fun r => r.token == t && r.is_revoked == false) = none →
      refresh_access_token cfg db t now = .error .tokenRevokedOrUnknown)
    ∧ (∀ p s, verify_refresh_token t now = .ok p →
      db.refresh_tokens.find?
          (fun r => r.token == t && r.is_revoked == false) = some s →
      s.expires_at < now →
      refresh_access_token cfg db t now = .error .tokenExpired)
    ∧ (∀ p s, verify_refresh_token t now = .ok p →
      db.refresh_tokens.find?
          (fun r => r.token == t && r.is_revoked == false) = some s →
      ¬ s.expires_at < now →
      db.users.find? (fun u0 => u0.id == p.sub.getD "") = none →
      refresh_access_token cfg db t now = .error .userNotFound)
    ∧ (∀ p s u0, verify_refresh_token t now = .ok p →
      db.refresh_tokens.find?
          (fun r => r.token == t && r.is_revoked == false) = some s →
      ¬ s.expires_at < now →
      db.users.find? (fun u1 => u1.id == p.sub.getD "") = some u0 →
      refresh_access_token cfg db t now
        = .ok (db, u0, create_access_token cfg u0.id u0.email now)) := by
  refine ⟨?_, ?_, ?_, ?_, ?_⟩
  · intro e he
    unfold refresh_access_token
    rw [he]
  · intro p hp hf
    unfold refresh_access_token
    rw [hp]
    dsimp only
    rw [hf]
  · intro p s hp hf hexp
    unfold refresh_access_token
    rw [hp]
    dsimp only
    rw [hf]
    dsimp only
    rw [if_pos hexp]
  · intro p s hp hf hexp hu
    unfold refresh_access_token
    rw [hp]
    dsimp only
    rw [hf]
    dsimp only
    rw [if_neg hexp]
    rw [hu]
  · intro p s u0 hp hf hexp hu
    unfold refresh_access_token
    rw [hp]
    dsimp only
    rw [hf]
    dsimp only
    rw [if_neg hexp]
    rw [hu]

/-- C1 counterexample: a signed refresh-typed token whose `sub` claim is
absent decodes successfully and matches no stored row, so the claim as
stated predicts `tokenRevokedOrUnknown`; the code maps the missing-subject
`JWTError` of the decode step to `invalidOrExpiredToken` instead. -/
theorem refresh_missing_subject_counterexample :
    (decode_token
        (.signed { sub := none, email := none, type := "refresh",
                   exp := 10, iat := 0 }) 0
      = .ok { sub := none, email := none, type := "refresh",
              exp := 10, iat := 0 })
    ∧ (({ sub := none, email := none, type := "refresh", exp := 10, iat := 0 }
          : TokenPayload).type = "refresh")
    ∧ ((DB.mk [] [] []).refresh_tokens.find?
        (fun r => r.token
            == .signed { sub := none, email := none, type := "refresh",
                         exp := 10, iat := 0 }
          && r.is_revoked == false) = none)
    ∧ (refresh_access_token {} (DB.mk [] [] [])
        (.signed { sub := none, email := none, type := "refresh",
                   exp := 10, iat := 0 }) 0
      = .error .invalidOrExpiredToken)
    ∧ (decide (refresh_access_token {} (DB.mk [] [] [])
        (.signed { sub := none, email := none, type := "refresh",
                   exp := 10, iat := 0 }) 0
      = .error .tokenRevokedOrUnknown) = false) :=
  ⟨rfl, rfl, rfl, rfl, by decide⟩

/-- Witness for C1 at a stored, unrevoked, unexpired token of user `u-1`:
the refresh succeeds with a new access token and the unchanged store. -/
theorem refresh_access_token_witness :
    refresh_access_token {}
        { users := [{ id := "u-1", email := "a@x.com", name := "A",
                      avatar_url := none, oauth_provider := "google",
                      oauth_id := "g-1", stripe_customer_id := none,
                      plan := "free" }],
          refresh_tokens := [{ id := "rt1", user_id := "u-1",
                               token := .signed { sub := some "u-1",
                                                  email := none,
                                                  type := "refresh",
                                                  exp := 100, iat := 0 },
                               is_revoked := false, expires_at := 100 }],
          workflows := [] }
        (.signed { sub := some "u-1", email := none, type := "refresh",
                   exp := 100, iat := 0 }) 1
      = .ok ({ users := [{ id := "u-1", email := "a@x.com", name := "A",
                           avatar_url := none, oauth_provider := "google",
                           oauth_id := "g-1", stripe_customer_id := none,
                           plan := "free" }],
               refresh_tokens := [{ id := "rt1", user_id := "u-1",
                                    token := .signed { sub := some "u-1",
                                                       email := none,
                                                       type := "refresh",
                                                       exp := 100, iat := 0 },
                                    is_revoked := false, expires_at := 100 }],
               workflows := [] },
             { id := "u-1", email := "a@x.com", name := "A",
               avatar_url := none, oauth_provider := "google",
               oauth_id := "g-1", stripe_customer_id := none, plan := "free" },
             create_access_token {} "u-1" "a@x.com" 1) :=
  (refresh_access_token_cases {}
      { users := [{ id := "u-1", email := "a@x.com", name := "A",
                    avatar_url := none, oauth_provider := "google",
                    oauth_id := "g-1", stripe_customer_id := none,
                    plan := "free" }],
        refresh_tokens := [{ id := "rt1", user_id := "u-1",
                             token := .signed { sub := some "u-1",
                                                email := none,
                                                type := "refresh",
                                                exp := 100, iat := 0 },
                             is_revoked := false, expires_at := 100 }],
        workflows := [] }
      (.signed { sub := some "u-1", email := none, type := "refresh",
                 exp := 100, iat := 0 }) 1).2.2.2.2
    { sub := some "u-1", email := none, type := "refresh", exp := 100, iat := 0 }
    { id := "rt1", user_id := "u-1",
      token := .signed { sub := some "u-1", email := none, type := "refresh",
                         exp := 100, iat := 0 },
      is_revoked := false, expires_at := 100 }
    { id := "u-1", email := "a@x.com", name := "A", avatar_url := none,
      oauth_provider := "google", oauth_id := "g-1",
      stripe_customer_id := none, plan := "free" }
    (by rfl) (by rfl) (by decide) (by rfl)

/-! ### Step lemmas for the refresh-token revocation invariant -/

theorem get_or_create_user_refresh_tokens (db : DB) (p : GooglePayload)
    (fresh_id : String) (db1 : DB) (u : User) (b : Bool)
    (h : get_or_create_user db p fresh_id = .ok (db1, u, b)) :
    db1.refresh_tokens = db.refresh_tokens := by
  simp only [get_or_create_user] at h
  cases hf : db.users.find? (fun x => x.oauth_id == p.sub) with
  | some user =>
    rw [hf] at h
    simp only [Except.ok.injEq, Prod.mk.injEq] at h
    obtain ⟨h1, -, -⟩ := h
    rw [← h1]
  | none =>
    rw [hf] at h
    cases hany : db.users.any (fun x => x.email == p.email) with
    | true => simp [hany] at h
    | false =>
      simp only [hany, Bool.false_eq_true, if_false, Except.ok.injEq,
        Prod.mk.injEq] at h
      obtain ⟨h1, -, -⟩ := h
      rw [← h1]

theorem store_ok_refresh_tokens (cfg : Settings) (db : DB) (user_id : String)
    (tok : Token) (fresh_id : String) (now : Nat) (db2 : DB)
    (rec : RefreshTokenRec)
    (h : store_refresh_token cfg db user_id tok fresh_id now = .ok (db2, rec)) :
    db2.refresh_tokens = db.refresh_tokens ++ [rec]
    ∧ rec.is_revoked = false
    ∧ ∀ x ∈ db.refresh_tokens, x.token ≠ rec.token := by
  unfold store_refresh_token at h
  cases hany : db.refresh_tokens.any (fun r => r.token == tok) with
  | true => simp [hany] at h
  | false =>
    simp only [hany, Bool.false_eq_true, if_false, Except.ok.injEq,
      Prod.mk.injEq] at h
    obtain ⟨hdb2, hrec⟩ := h
    subst hdb2
    subst hrec
    refine ⟨rfl, rfl, ?_⟩
    intro x hx
    have hx2 := List.any_eq_false.mp hany x hx
    simpa using hx2

theorem authenticate_ok_refresh_tokens (cfg : Settings) (db : DB)
    (payload : GooglePayload) (uid tid : String) (now : Nat)
    (db2 : DB) (u : User) (acc ref : Token)
    (h : authenticate_with_google cfg db payload uid tid now
          = .ok (db2, u, acc, ref)) :
    ∃ rec : RefreshTokenRec,
      db2.refresh_tokens = db.refresh_tokens ++ [rec]
      ∧ rec.is_revoked = false
      ∧ ∀ x ∈ db.refresh_tokens, x.token ≠ rec.token := by
  unfold authenticate_with_google at h
  cases hg : get_or_create_user db payload uid with
  | error e => rw [hg] at h; cases h
  | ok res =>
    obtain ⟨db1, user, is_new⟩ := res
    rw [hg] at h
    simp only at h
    have hrt : db1.refresh_tokens = db.refresh_tokens :=
      get_or_create_user_refresh_tokens db payload uid db1 user is_new hg
    cases hs : store_refresh_token cfg db1 user.id
        (create_refresh_token cfg user.id now) tid now with
    | error e => rw [hs] at h; cases h
    | ok res2 =>
      obtain ⟨db2b, rec⟩ := res2
      rw [hs] at h
      simp only [Except.ok.injEq, Prod.mk.injEq] at h
      obtain ⟨hdb, -, -, -⟩ := h
      obtain ⟨h1, h2, h3⟩ := store_ok_refresh_tokens cfg db1 user.id
        (create_refresh_token cfg user.id now) tid now db2b rec hs
      refine ⟨rec, ?_, h2, ?_⟩
      · rw [← hdb, h1, hrt]
      · intro x hx
        exact h3 x (by rw [hrt]; exact hx)

theorem refresh_ok_db_unchanged (cfg : Settings) (db : DB) (t : Token)
    (now : Nat) (db2 : DB) (u : User) (acc : Token)
    (h : refresh_access_token cfg db t now = .ok (db2, u, acc)) : db2 = db := by
  unfold refresh_access_token at h
  split at h
  · cases h
  · split at h
    · cases h
    · split at h
      · cases h
      · dsimp only at h
        split at h
        · cases h
        · simp only [Except.ok.injEq, Prod.mk.injEq] at h
          exact h.1.symm

theorem revoke_tokens_map (db : DB) (t : Token) :
    (revoke_refresh_token db t).refresh_tokens.map (fun r => r.token)
      = db.refresh_tokens.map (fun r => r.token) := by
  unfold revoke_refresh_token
  cases hf : db.refresh_tokens.find? (fun r => r.token == t) with
  | none => rfl
  | some s => exact updateFirst_map_eq _ _ _ _ (fun x => rfl)

theorem updateFirst_revoke_mem (p : RefreshTokenRec → Bool)
    (l : List RefreshTokenRec) (r : RefreshTokenRec) (hr : r ∈ l) :
    ∃ r2 ∈ updateFirst p (fun x => { x with is_revoked := true }) l,
      r2.token = r.token ∧ (r.is_revoked = true → r2.is_revoked = true) := by
  induction l with
  | nil => cases hr
  | cons x xs ih =>
    cases hp : p x with
    | true =>
      rcases List.mem_cons.mp hr with h | h
      · subst h
        exact ⟨{ r with is_revoked := true },
          by simp [updateFirst, hp], rfl, fun _ => rfl⟩
      · exact ⟨r, by simp [updateFirst, hp, h], rfl, fun h2 => h2⟩
    | false =>
      rcases List.mem_cons.mp hr with h | h
      · subst h
        exact ⟨r, by simp [updateFirst, hp], rfl, fun h2 => h2⟩
      · obtain ⟨r2, hr2, ht2, hrev2⟩ := ih h
        exact ⟨r2, by simp [updateFirst, hp, Or.inr hr2], ht2, hrev2⟩

theorem runOp_preserves_revInv (cfg : Settings) (db : DB) (op : AuthOp)
    (t : Token) (hu : tokensUnique db)
    (hex : ∃ r ∈ db.refresh_tokens, r.token = t ∧ r.is_revoked = true) :
    tokensUnique (runOp cfg db op)
    ∧ ∃ r ∈ (runOp cfg db op).refresh_tokens,
        r.token = t ∧ r.is_revoked = true := by
  cases op with
  | login payload uid tid now =>
    simp only [runOp]
    cases ha : authenticate_with_google cfg db payload uid tid now with
    | error e => exact ⟨hu, hex⟩
    | ok res =>
      obtain ⟨db2, u, acc, ref⟩ := res
      obtain ⟨rec, hdb2, hrev, hfresh⟩ :=
        authenticate_ok_refresh_tokens cfg db payload uid tid now db2 u acc ref ha
      constructor
      · unfold tokensUnique
        rw [hdb2, List.map_append, List.nodup_append]
        refine ⟨hu, by simp, ?_⟩
        intro a hma hmb
        obtain ⟨x, hx, rfl⟩ := List.mem_map.mp hma
        simp only [List.map_cons, List.map_nil, List.mem_singleton] at hmb
        exact hfresh x hx hmb
      · obtain ⟨r0, hr0, h1, h2⟩ := hex
        exact ⟨r0, by rw [hdb2]; exact List.mem_append_left _ hr0, h1, h2⟩
  | refresh t2 now =>
    simp only [runOp]
    cases hr : refresh_access_token cfg db t2 now with
    | error e => exact ⟨hu, hex⟩
    | ok res =>
      obtain ⟨db2, u, acc⟩ := res
      have := refresh_ok_db_unchanged cfg db t2 now db2 u acc hr
      subst this
      exact ⟨hu, hex⟩
  | revoke t2 =>
    simp only [runOp]
    constructor
    · unfold tokensUnique
      rw [revoke_tokens_map]
      exact hu
    · obtain ⟨r0, hr0, h1, h2⟩ := hex
      unfold revoke_refresh_token
      cases hf : db.refresh_tokens.find? (fun r => r.token == t2) with
      | none => exact ⟨r0, hr0, h1, h2⟩
      | some s =>
        obtain ⟨r2, hr2, ht2, hrev2⟩ :=
          updateFirst_revoke_mem (fun r => r.token == t2) db.refresh_tokens r0 hr0
        exact ⟨r2, hr2, by rw [ht2, h1], hrev2 h2⟩

theorem all_of_exists_revoked (l : List RefreshTokenRec) (t : Token)
    (hu : (l.map (fun r => r.token)).Nodup)
    (hex : ∃ r ∈ l, r.token = t ∧ r.is_revoked = true) :
    ∀ r ∈ l, r.token = t → r.is_revoked = true := by
  obtain ⟨r0, hr0, ht0, hrev0⟩ := hex
  intro r hr hrt
  have heq : r = r0 :=
    List.inj_on_of_nodup_map hu hr hr0 (by rw [hrt, ht0])
  rw [heq]
  exact hrev0

/-- C4: once a stored refresh token is revoked it stays revoked through any
sequence of auth-service operations (login, refresh, revoke): in the final
store every row holding that token string still has `is_revoked = true`.
Requires the store's unique-token invariant. -/
theorem revoked_is_terminal (cfg : Settings) (db : DB) (ops : List AuthOp)
    (t : Token) (hu : tokensUnique db)
    (hrev : db.refresh_tokens.any (fun r => r.token == t && r.is_revoked)
      = true) :
    (runOps cfg db ops).refresh_tokens.all
      (fun r => !(r.token == t) || r.is_revoked) = true := by
  have hex : ∃ r ∈ db.refresh_tokens, r.token = t ∧ r.is_revoked = true := by
    rw [List.any_eq_true] at hrev
    obtain ⟨r, hr, hp⟩ := hrev
    simp only [Bool.and_eq_true, beq_iff_eq] at hp
    exact ⟨r, hr, hp⟩
  have main : ∀ db0 : DB, tokensUnique db0 →
      (∃ r ∈ db0.refresh_tokens, r.token = t ∧ r.is_revoked = true) →
      tokensUnique (runOps cfg db0 ops)
      ∧ ∃ r ∈ (runOps cfg db0 ops).refresh_tokens,
          r.token = t ∧ r.is_revoked = true := by
    induction ops with
    | nil => exact fun db0 h1 h2 => ⟨h1, h2⟩
    | cons op rest ih =>
      intro db0 h1 h2
      have step := runOp_preserves_revInv cfg db0 op t h1 h2
      exact ih (runOp cfg db0 op) step.1 step.2
  obtain ⟨hu2, hex2⟩ := main db hu hex
  rw [List.all_eq_true]
  intro r hr
  by_cases hteq : r.token = t
  · have := all_of_exists_revoked _ t hu2 hex2 r hr hteq
    simp [this]
  · simp [hteq]

/-- Witness for C4: a store holding a revoked token `t1` and a live token
`t2`; after revoking `t2`, every row with token `t1` is still revoked. -/
theorem revoked_is_terminal_witness :
    (runOps {}
        { users := [],
          refresh_tokens :=
            [{ id := "r1", user_id := "u1", token := .malformed "t1",
               is_revoked := true, expires_at := 50 },
             { id := "r2", user_id := "u1", token := .malformed "t2",
               is_revoked := false, expires_at := 50 }],
          workflows := [] }
        [AuthOp.revoke (.malformed "t2")]).refresh_tokens.all
      (fun r => !(r.token == .malformed "t1") || r.is_revoked) = true :=
  revoked_is_terminal {}
    { users := [],
      refresh_tokens :=
        [{ id := "r1", user_id := "u1", token := .malformed "t1",
           is_revoked := true, expires_at := 50 },
         { id := "r2", user_id := "u1", token := .malformed "t2",
           is_revoked := false, expires_at := 50 }],
      workflows := [] }
    [AuthOp.revoke (.malformed "t2")] (.malformed "t1")
    (by unfold tokensUnique; decide) (by rfl)

end SynthFlow
